import Mathlib

/-!
Verification development for the A2A Paper Research Agent repository
(`app/agent.py`, `app/agent_executor.py`, `app/server.py`, `app/client.py`).

The development shallowly embeds the task-execution and event-streaming layer:

* `search_arXiv` — the arXiv tool (`app/agent.py`, lines 24-73), with the
  external `arxiv` library call abstracted as an outcome oracle.
* `modelInput` — the system-prompt injection of the `call_model` graph node
  (`app/agent.py`, lines 135-142).
* `handleSnapshot` / `stepEvents` — the body of `PaperAgentExecutor.execute`
  (`app/agent_executor.py`, lines 58-104): how one raw stream event is turned
  into protocol events, and the fold of that handler over the whole raw
  event sequence delivered by `agent.stream`.
* `runLoop` / `executeModel` — `execute` fused with the agent loop itself
  (the LangGraph graph built in `_build_graph`, `app/agent.py`, lines
  132-153).  The LangGraph runtime is external to the repository, so the
  stream of turn snapshots is modelled from the spec (section 4.3): the
  stream lazily yields the last message of the history after each
  transition (after each reasoning step and after each tool-execution
  step).  The fusion makes the lazy consumption explicit, so the number of
  reasoning-engine and tool invocations actually performed is part of the
  model.
* `handle_send` / `handle_stream` / `handle_a2a_request` — the transport
  binding (`app/server.py`, lines 38-164), with Python exception classes
  made explicit: `PaperAgentExecutor.execute` raises
  `ServerError(error=InvalidParamsError())`, a `ServerError` instance, while
  `handle_send` catches the distinct class `InvalidParamsError`, so the
  dedicated `-32602` branch never matches what `execute` raises.

Machine-level conventions: the event objects enqueued through the a2a SDK
(`TaskUpdater.update_status`, `add_artifact`, `complete`, `new_task`) are
external to the repository and are modelled from the spec (section 3) as the
closed `Event` union (status update / artifact / completion, plus the task
object enqueued at creation).
-/

set_option autoImplicit false

namespace PRA

/-! ### Data model: messages, task states, events -/

/-- Message roles as the executor distinguishes them (LangChain
`HumanMessage` / `AIMessage` / `ToolMessage` / `SystemMessage`). -/
inductive Role where
  | user
  | assistant
  | tool
  | system
deriving DecidableEq, Repr

/-- A conversation message.  Only the fields that the repository inspects
are modelled: `content` (a text payload, possibly empty) and `tool_calls`
(the list of requested tool invocations, here by tool-call payload; messages
whose Python class has no `tool_calls` attribute carry the empty list, which
takes the same branch in `execute` as an empty `tool_calls` attribute). -/
structure Msg where
  role : Role
  content : String
  tool_calls : List String
deriving DecidableEq, Repr

/-- Protocol task states (`a2a.types.TaskState` as used by the repository). -/
inductive TaskState where
  | submitted
  | working
  | input_required
  | completed
  | failed
deriving DecidableEq, Repr

/-- Modelled from the spec: protocol events (section 3 event union).  The
concrete event classes live in the external a2a SDK; the repository enqueues
a task object on creation (`new_task`), status updates
(`TaskUpdater.update_status`), artifacts (`TaskUpdater.add_artifact`) and a
completion (`TaskUpdater.complete`). -/
inductive Event where
  | task (state : TaskState)
  | status (state : TaskState) (message : String) (final : Bool)
  | artifact (name : String) (content : String)
  | completion
deriving DecidableEq, Repr

/-! ### The executor: one raw stream event at a time
(`PaperAgentExecutor.execute`, `app/agent_executor.py` lines 58-104) -/

/-- Whether the first list is a prefix of the second (on characters). -/
def isPrefixL : List Char → List Char → Bool
  | [], _ => true
  | _ :: _, [] => false
  | c :: cs, d :: ds => c == d && isPrefixL cs ds

/-- Substring occurrence on character lists: some suffix starts with `pat`. -/
def containsL (pat : List Char) : List Char → Bool
  | [] => pat.isEmpty
  | c :: cs => isPrefixL pat (c :: cs) || containsL pat cs

/-- Python substring containment `pat in s`.  (Structurally recursive so
that concrete instances evaluate inside the kernel.) -/
def containsSub (s pat : String) : Bool :=
  containsL pat.data s.data

/-- Python `str.lower()` (character-wise lowering). -/
def lowerStr (s : String) : String :=
  ⟨s.data.map Char.toLower⟩

/-- The clarification heuristic of `execute` (line 83):
`"clarification" in content.lower() or "more information" in content.lower()`. -/
def needsClarification (content : String) : Bool :=
  containsSub (lowerStr content) "clarification" ||
    containsSub (lowerStr content) "more information"

/-- The non-final working status update emitted while tools run
(`execute`, lines 69-77). -/
def workingEvent : Event :=
  .status .working "Searching in arXiv for papers ... " false

/-- The loop body of `execute` on the last message of one stream event
(lines 68-104): returns the protocol events emitted for this snapshot and
whether the loop breaks.
* a message with tool calls: non-final `working` update, keep looping;
* otherwise, a message with non-empty content: if the clarification
  heuristic matches, a final `input_required` update and break; otherwise
  an artifact named `paper_search_results` (line 100) followed by the
  completion, and break;
* otherwise: nothing is emitted and the loop continues. -/
def handleSnapshot (m : Msg) : List Event × Bool :=
  match m.tool_calls with
  | _ :: _ => ([workingEvent], false)
  | [] =>
    if m.content = "" then ([], false)
    else if needsClarification m.content then
      ([.status .input_required m.content true], true)
    else
      ([.artifact "paper_search_results" m.content, .completion], true)

/-- One raw event of `agent.stream` as `execute` sees it: either a dict
without a `"messages"` key (skipped by line 60), or a state snapshot of
which only the last message is inspected (line 65). -/
inductive RawEvent where
  | noMessages
  | snap (last_message : Msg)
deriving DecidableEq, Repr

/-- The `for event in self.agent.stream(...)` loop of `execute` (lines
59-104) folded over a raw event sequence: events without a `"messages"` key
are skipped, and the loop stops at the first snapshot whose handler breaks. -/
def stepEvents : List RawEvent → List Event
  | [] => []
  | .noMessages :: rest => stepEvents rest
  | .snap m :: rest =>
    match handleSnapshot m with
    | (evs, true) => evs
    | (evs, false) => evs ++ stepEvents rest

/-! ### Request validation and exception classes -/

/-- `_validate_request` (lines 110-130): validation fails (returns `True`)
exactly when `not query or not query.strip()`, i.e. the query is empty or
every one of its characters is whitespace (stripping leaves nothing). -/
def validateFails (query : String) : Bool :=
  query.data.all Char.isWhitespace

/-- The a2a error payloads the repository constructs. -/
inductive A2AErr where
  | invalidParams
  | internal
  | unsupportedOperation
deriving DecidableEq, Repr

/-- Python exception values relevant to the transport binding.
`serverError e` is an `a2a.utils.errors.ServerError` instance wrapping the
payload `e`; `invalidParamsInstance` stands for an exception whose class is
`a2a.types.InvalidParamsError` itself — that class is a pydantic payload
model, not an exception type, so nothing in the repository ever raises it,
but the first catch clause of `handle_send` names it, so the model keeps the
constructor to keep that clause live. -/
inductive PyExc where
  | serverError (wrapped : A2AErr)
  | invalidParamsInstance
  | other
deriving DecidableEq, Repr

/-- `execute` over an already-given raw event sequence (validation at lines
36-39 raising `ServerError(error=InvalidParamsError())`, task creation at
lines 51-53 enqueuing a fresh task in `submitted` state when the request
carries none, then the event loop). -/
def executeRaw (query : String) (hasTask : Bool) (raws : List RawEvent) :
    Except PyExc (List Event) :=
  if validateFails query then .error (.serverError .invalidParams)
  else .ok ((if hasTask then [] else [Event.task .submitted]) ++ stepEvents raws)

/-! ### The reasoning node (`call_model`, `app/agent.py` lines 135-142) -/

/-- The fixed system instruction of `PaperResearchAgent`
(`app/agent.py`, lines 85-115).  Braces of the embedded JSON example are
written with hex escapes. -/
def system_prompt : String :=
  "\n    You are a **research assistant specialized in academic paper retrieval**.\n\n    ## Role:\n    - You help users find, summarize, and organize academic papers on requested topics.\n    - You must **only** use your available tools (e.g., paper retriever, API, or database) to access and return paper information.\n    - You are **not allowed** to fabricate or invent any data, citations, or internal details that are not explicitly retrieved from your tools.\n    - You may ask the user for clarification if the request is ambiguous or incomplete.\n\n    ## Behavior Guidelines:\n    1. Always verify that the query is clear enough before using tools.\n    2. Keep responses factual and concise unless the user asks for detailed summaries.\n    3. If no relevant papers are found, inform the user and suggest how they can refine their query.\n    4. Avoid assumptions - rely strictly on the data returned by your tools.\n    5. If tool access fails, respond with an error and do not make up results.\n\n    ## Response Structure:\n    - **status**: one of [\"input_required\", \"error\", \"completed\"]\n    - **message**: your main response or clarification for the user\n    - **data** (optional): structured information such as paper titles, authors, links, summaries\n\n    Example:\n    \x7b\n    \"status\": \"completed\",\n    \"message\": \"Here are 3 recent papers about quantum computing optimization.\",\n    \"data\": [\n        \x7b\"title\": \"Variational Quantum Algorithms Review\", \"authors\": [\"John Doe\"], \"year\": 2023, \"link\": \"https://arxiv.org/...\"\x7d,\n        \x7b\"title\": \"Quantum Annealing for Combinatorial Problems\", \"authors\": [\"Jane Smith\"], \"year\": 2022, \"link\": \"https://arxiv.org/...\"\x7d\n    ]\n    \x7d\n    "

/-- Whether a message is a `SystemMessage` (`isinstance(m, SystemMessage)`). -/
def isSystemB (m : Msg) : Bool :=
  m.role == .system

/-- The system message prepended by `call_model`. -/
def sysMsg : Msg :=
  ⟨.system, system_prompt, []⟩

/-- A fresh user message (the `("user", query)` input of `invoke`/`stream`). -/
def userMsg (query : String) : Msg :=
  ⟨.user, query, []⟩

/-- A tool-result message appended by the tool node. -/
def toolMsg (result : String) : Msg :=
  ⟨.tool, result, []⟩

/-- The history actually handed to the model by `call_model` (`app/agent.py`
lines 137-141): if no `SystemMessage` is present, the fixed system
instruction is prepended; otherwise the history is passed unchanged.  The
prepended copy is local to the call, it is not written back to the state. -/
def modelInput (messages : List Msg) : List Msg :=
  if messages.any isSystemB then messages else sysMsg :: messages

/-! ### The agent loop fused with the executor

The LangGraph runtime driving the `agent`/`tools` cycle of `_build_graph` is
external to the repository.  Modelled from the spec (section 4.3): the
stream lazily yields the last message of the history after each transition
— after a reasoning step, the assistant message; after a tool-execution
step, the last appended tool-result message.  The reasoning engine is an
oracle `List Msg → Msg` and each tool call is an oracle `String → String`.
The fusion below makes the lazy `for` loop of `execute` explicit: the
engine and the tools only run for the stream prefix the executor actually
consumes, so the recorded call counts match the lazy semantics. -/

/-- Result of one possibly truncated run of the fused loop: the protocol events
emitted, how many reasoning-engine calls and tool invocations were
performed, and whether the run finished (stream ended or executor broke) as
opposed to the fuel running out with the stream still live. -/
structure RunAcc where
  events : List Event
  engineCalls : Nat
  toolCalls : Nat
  finished : Bool
deriving Repr

/-- Placeholder for `List.getLastD` on the (never empty) tool-message list. -/
def defaultMsg : Msg :=
  ⟨.tool, "", []⟩

/-- The fused executor/agent loop.  Each iteration: one reasoning step
(`call_model`); if the response carries no tool calls the graph routes to
`END`, the snapshot is handled and the stream ends; otherwise the executor
first handles the assistant snapshot (a `working` update, no break), then
the tool node runs every requested call in order and the stream yields the
last tool message as the next snapshot; if its handler breaks the run stops,
otherwise the loop continues on the extended history. -/
def runLoop (engine : List Msg → Msg) (tools : String → String) :
    Nat → List Msg → RunAcc
  | 0, _ => ⟨[], 0, 0, false⟩
  | fuel + 1, hist =>
    let response := engine (modelInput hist)
    match response.tool_calls with
    | [] => ⟨(handleSnapshot response).1, 1, 0, true⟩
    | c :: cs =>
      let toolMsgs := (c :: cs).map (fun call => toolMsg (tools call))
      match handleSnapshot (toolMsgs.getLastD defaultMsg) with
      | (evs2, true) => ⟨workingEvent :: evs2, 1, (c :: cs).length, true⟩
      | (evs2, false) =>
        let rest := runLoop engine tools fuel ((hist ++ [response]) ++ toolMsgs)
        ⟨workingEvent :: (evs2 ++ rest.events), 1 + rest.engineCalls,
          (c :: cs).length + rest.toolCalls, rest.finished⟩

/-- Outcome of `PaperAgentExecutor.execute` together with the number of
reasoning-engine and tool invocations it actually triggered. -/
structure ExecOut where
  result : Except PyExc (List Event)
  engineCalls : Nat
  toolCalls : Nat
deriving Repr

/-- `execute` end to end: validation (raising before anything else runs, so
zero engine and tool calls and no enqueued event), task creation for
requests with no current task, then the fused loop over the thread history
extended with the new user message (`hist0` is the persisted history of the
thread, empty for a fresh `context_id`). -/
def executeModel (engine : List Msg → Msg) (tools : String → String)
    (fuel : Nat) (query : String) (hasTask : Bool) (hist0 : List Msg) : ExecOut :=
  if validateFails query then ⟨.error (.serverError .invalidParams), 0, 0⟩
  else
    let r := runLoop engine tools fuel (hist0 ++ [userMsg query])
    ⟨.ok ((if hasTask then [] else [Event.task .submitted]) ++ r.events),
      r.engineCalls, r.toolCalls⟩

/-! ### Transport binding (`app/server.py`) -/

/-- A JSON-RPC response as the aggregate handler produces it: the success
envelope with the buffered event list, or an error envelope with the given
code. -/
inductive Response where
  | success (events : List Event)
  | error (code : Int)
deriving DecidableEq, Repr

/-- Whether a raised exception is an instance of the class
`a2a.types.InvalidParamsError` named by the first catch clause of
`handle_send` (lines 98-107).  A `ServerError` wrapping an `InvalidParamsError`
payload is not: the wrapper is a different class. -/
def isInstanceInvalidParams : PyExc → Bool
  | .invalidParamsInstance => true
  | _ => false

/-- `handle_send` (lines 76-119) on the executor outcome: success envelope
with all buffered events, `-32602` when an `InvalidParamsError`-class
exception is caught, `-32603` for every other exception (including the
`ServerError` wrapper that `execute` actually raises). -/
def handle_send (out : Except PyExc (List Event)) : Response :=
  match out with
  | .ok evs => .success evs
  | .error e => if isInstanceInvalidParams e then .error (-32602) else .error (-32603)

/-- The `event.type` tag the stream generator compares against
`"completion"` (line 142).  Modelled from the spec event union. -/
def eventType : Event → String
  | .task _ => "task"
  | .status _ _ _ => "status"
  | .artifact _ _ => "artifact"
  | .completion => "completion"

/-- The SSE generator of `handle_stream` (lines 128-155): dequeue and yield
each event in emission order, stopping after yielding an event whose type is
`"completion"` (or when the queue is exhausted). -/
def streamFrames : List Event → List Event
  | [] => []
  | e :: rest =>
    if eventType e = "completion" then [e] else e :: streamFrames rest

/-- Outcome of `handle_stream`: the framed event sequence, or a stream that
is never closed (the executor raised inside the background task, so no
events and no completion ever reach the queue). -/
inductive StreamOut where
  | frames (events : List Event)
  | noClose
deriving DecidableEq, Repr

/-- `handle_stream` (lines 121-164) on the executor outcome. -/
def handle_stream (out : Except PyExc (List Event)) : StreamOut :=
  match out with
  | .ok evs => .frames (streamFrames evs)
  | .error _ => .noClose

/-- An HTTP-level reply: a JSON response or an SSE stream. -/
inductive HttpOut where
  | json (response : Response)
  | stream (s : StreamOut)
deriving DecidableEq, Repr

/-- The method dispatch of `handle_a2a_request` (lines 49-62):
`message/send` and `tasks/send` go to the aggregate handler,
`message/stream` to the streaming handler, and every other method — there
is no cancellation route — gets a `-32601` method-not-found envelope.  The
executor outcome argument is only consumed by the two routed handlers. -/
def handle_a2a_request (method : String) (out : Except PyExc (List Event)) :
    HttpOut :=
  if method = "message/send" ∨ method = "tasks/send" then .json (handle_send out)
  else if method = "message/stream" then .stream (handle_stream out)
  else .json (.error (-32601))

/-- `PaperAgentExecutor.cancel` (lines 175-191): unconditionally raises
`ServerError(error=UnsupportedOperationError())`. -/
def cancelModel : Except PyExc Unit :=
  .error (.serverError .unsupportedOperation)

/-- The JSON-RPC code of the a2a `UnsupportedOperationError` payload
(`-32004` in the A2A protocol).  Modelled from the spec: the payload class
lives in the external a2a SDK; the constant only serves to state that a
`-32601` envelope is not an unsupported-operation error. -/
def unsupportedOperationCode : Int := -32004

/-! ### The arXiv tool (`search_arXiv`, `app/agent.py` lines 24-73) -/

/-- A Python argument value as the tool receives it: a string, an integer,
or some other (wrongly typed) value. -/
inductive PyVal where
  | str (s : String)
  | int (n : Int)
  | otherVal
deriving DecidableEq, Repr

/-- The check `not query or not isinstance(query, str)` (line 42): fails on
the empty (falsy) string and on every non-string value. -/
def queryInvalid : PyVal → Bool
  | .str s => s = ""
  | _ => true

/-- The check `not isinstance(max_results, int)` (line 44).  Note there is
no lower-bound check on the value. -/
def maxResultsInvalid : PyVal → Bool
  | .int _ => false
  | _ => true

/-- An arXiv search result entry (the fields the tool reads). -/
structure Paper where
  title : String
  authors : List String
  entry_id : String
  summary : String
deriving DecidableEq, Repr

/-- Outcome of the external `arxiv.Search(...)` call and result iteration
(the body of the `try` block, lines 48-54): either some exception is raised
while searching, or a result list is returned. -/
inductive ArxivOutcome where
  | raises (msg : String)
  | returns (papers : List Paper)
deriving DecidableEq, Repr

/-- Newline-to-space replacement of the summary field (line 60),
character-wise. -/
def newlineToSpace (s : String) : String :=
  ⟨s.data.map (fun c => if c == '\n' then ' ' else c)⟩

/-- The per-paper formatting of lines 59-68 (`i` is the zero-based index). -/
def formatPaper (i : Nat) (p : Paper) : String :=
  "Paper " ++ toString (i + 1) ++ ":\n" ++
    "  Title: " ++ p.title ++ "\n" ++
    "  Authors: " ++ String.intercalate ", " p.authors ++ "\n" ++
    "  URL: " ++ p.entry_id ++ "\n" ++
    "  Abstract: " ++ newlineToSpace p.summary ++ "...\n"

/-- Formatting of the whole result list, in order, with running index. -/
def formatPapers : Nat → List Paper → List String
  | _, [] => []
  | i, p :: ps => formatPaper i p :: formatPapers (i + 1) ps

/-- A raised `ValueError` (the interpolated found-value suffix of the
Python message is omitted). -/
inductive ToolError where
  | valueError (msg : String)
deriving DecidableEq, Repr

/-- `search_arXiv` (lines 24-73): argument validation raises `ValueError`
out of the function (lines 42-45, outside any handler); only the search
itself is guarded by `try`, whose handler converts any exception to the
textual result `"An error occurred while searching arXiv: ..."` (line 73);
an empty result list yields the textual no-papers message (line 56). -/
def search_arXiv (query : PyVal) (max_results : PyVal)
    (outcome : ArxivOutcome) : Except ToolError String :=
  if queryInvalid query then
    .error (.valueError "Query must be a non-empty string.")
  else if maxResultsInvalid max_results then
    .error (.valueError "max_results must be an integer.")
  else
    match outcome with
    | .raises msg => .ok ("An error occurred while searching arXiv: " ++ msg)
    | .returns [] => .ok "No papers found related to the search query."
    | .returns papers => .ok (String.intercalate "\n" (formatPapers 0 papers))

/-! ### Concrete engines and tools used as test vehicles -/

/-- A reasoning engine that requests a tool call on every turn and never
returns final content. -/
def toolAlwaysEngine : List Msg → Msg :=
  fun _ => ⟨.assistant, "", ["search_arXiv"]⟩

/-- A reasoning engine that immediately returns the given final content. -/
def finalEngine (content : String) : List Msg → Msg :=
  fun _ => ⟨.assistant, content, []⟩

/-- A tool oracle whose every invocation returns the empty string. -/
def emptyTool : String → String :=
  fun _ => ""

/-- Whether an event is an artifact. -/
def isArtifactB : Event → Bool
  | .artifact _ _ => true
  | _ => false

/-- Whether an event is a `working` status update. -/
def isWorkingStatusB : Event → Bool
  | .status .working _ _ => true
  | _ => false

/-- Whether a tool call returned normally (`Except.ok`). -/
def isOkB (r : Except ToolError String) : Bool :=
  match r with
  | .ok _ => true
  | .error _ => false

/-! ## Helper lemmas -/

/-- Filtering a replicated element that fails the predicate gives nothing. -/
theorem filter_replicate_neg {α : Type} (p : α → Bool) (a : α) (hp : p a = false) :
    ∀ n, (List.replicate n a).filter p = [] := by
  intro n
  induction n with
  | zero => rfl
  | succ m ih => simp [List.replicate_succ, List.filter_cons, hp, ih]

/-- If no element satisfies the predicate, the count is zero. -/
theorem countP_eq_zero_of_any_false {α : Type} (p : α → Bool) :
    ∀ l : List α, l.any p = false → l.countP p = 0 := by
  intro l
  induction l with
  | nil => intro _; rfl
  | cons a l ih =>
    intro h
    simp only [List.any_cons, Bool.or_eq_false_iff] at h
    simp [List.countP_cons, h.1, ih h.2]

/-- Every event sequence produced by the executor loop is a prefix of
non-final `working` updates followed by nothing, by a single final
`input_required` update, or by a single artifact named
`paper_search_results` and the completion. -/
theorem stepEvents_shape (raws : List RawEvent) :
    ∃ n : Nat,
      stepEvents raws = List.replicate n workingEvent ∨
      (∃ c, stepEvents raws =
        List.replicate n workingEvent ++ [Event.status .input_required c true]) ∨
      (∃ c, stepEvents raws = List.replicate n workingEvent ++
        [Event.artifact "paper_search_results" c, Event.completion]) := by
  induction raws with
  | nil => exact ⟨0, Or.inl rfl⟩
  | cons r rest ih =>
    cases r with
    | noMessages => simpa [stepEvents] using ih
    | snap m =>
      rcases m with ⟨role, content, tcs⟩
      cases tcs with
      | cons c cs =>
        obtain ⟨n, h⟩ := ih
        have hstep : stepEvents (RawEvent.snap ⟨role, content, c :: cs⟩ :: rest) =
            workingEvent :: stepEvents rest := by
          simp [stepEvents, handleSnapshot]
        refine ⟨n + 1, ?_⟩
        rcases h with h | ⟨cc, h⟩ | ⟨cc, h⟩
        · exact Or.inl (by rw [hstep, h, List.replicate_succ])
        · exact Or.inr (Or.inl ⟨cc, by rw [hstep, h, List.replicate_succ, List.cons_append]⟩)
        · exact Or.inr (Or.inr ⟨cc, by rw [hstep, h, List.replicate_succ, List.cons_append]⟩)
      | nil =>
        by_cases hc : content = ""
        · simpa [stepEvents, handleSnapshot, hc] using ih
        · by_cases hcl : needsClarification content = true
          · exact ⟨0, Or.inr (Or.inl ⟨content, by
              simp [stepEvents, handleSnapshot, hc, hcl]⟩)⟩
          · exact ⟨0, Or.inr (Or.inr ⟨content, by
              simp [stepEvents, handleSnapshot, hc, hcl]⟩)⟩

/-- Every event the executor loop emits is a `working` update, a final
`input_required` update, an artifact named `paper_search_results`, or the
completion. -/
theorem mem_stepEvents (raws : List RawEvent) (e : Event)
    (h : e ∈ stepEvents raws) :
    e = workingEvent ∨ (∃ c, e = Event.status .input_required c true) ∨
      (∃ c, e = Event.artifact "paper_search_results" c) ∨ e = Event.completion := by
  obtain ⟨n, hs | ⟨c, hs⟩ | ⟨c, hs⟩⟩ := stepEvents_shape raws
  · rw [hs] at h
    exact Or.inl (List.eq_of_mem_replicate h)
  · rw [hs] at h
    rcases List.mem_append.mp h with h | h
    · exact Or.inl (List.eq_of_mem_replicate h)
    · simp only [List.mem_singleton] at h
      exact Or.inr (Or.inl ⟨c, h⟩)
  · rw [hs] at h
    rcases List.mem_append.mp h with h | h
    · exact Or.inl (List.eq_of_mem_replicate h)
    · rcases List.mem_cons.mp h with h | h
      · exact Or.inr (Or.inr (Or.inl ⟨c, h⟩))
      · simp only [List.mem_singleton] at h
        exact Or.inr (Or.inr (Or.inr h))

/-- The executor loop never emits a `failed` status update. -/
theorem stepEvents_no_failed (raws : List RawEvent) (msg : String) (fin : Bool) :
    Event.status .failed msg fin ∉ stepEvents raws := by
  intro h
  rcases mem_stepEvents raws _ h with h | ⟨c, h⟩ | ⟨c, h⟩ | h <;>
    simp [workingEvent] at h

/-- Yielding a non-completion event leaves the stream generator running. -/
theorem streamFrames_cons_ne (e : Event) (l : List Event)
    (h : eventType e = "completion" → False) :
    streamFrames (e :: l) = e :: streamFrames l := by
  simp only [streamFrames]
  rw [if_neg h]

/-- `working` updates pass through the stream generator unchanged. -/
theorem streamFrames_replicate_working (n : Nat) (l : List Event) :
    streamFrames (List.replicate n workingEvent ++ l) =
      List.replicate n workingEvent ++ streamFrames l := by
  induction n with
  | zero => rfl
  | succ m ih =>
    rw [List.replicate_succ, List.cons_append,
      streamFrames_cons_ne _ _ (by simp [workingEvent, eventType]), ih,
      List.cons_append]

/-- The stream generator of `handle_stream` reproduces the executor loop
event sequence exactly: the only completion is the final event, so no
truncation occurs. -/
theorem streamFrames_stepEvents (raws : List RawEvent) :
    streamFrames (stepEvents raws) = stepEvents raws := by
  obtain ⟨n, hs | ⟨c, hs⟩ | ⟨c, hs⟩⟩ := stepEvents_shape raws
  · rw [hs]
    have h2 := streamFrames_replicate_working n []
    rw [List.append_nil] at h2
    simpa [streamFrames] using h2
  · rw [hs, streamFrames_replicate_working]
    simp [streamFrames, eventType]
  · rw [hs, streamFrames_replicate_working]
    simp [streamFrames, eventType]

/-- Closed form of the fused loop on an engine that requests a tool call on
every turn, with tool results that are empty strings: each iteration emits
exactly one non-final `working` update and the run never finishes. -/
theorem runLoop_toolAlways : ∀ (n : Nat) (hist : List Msg),
    runLoop toolAlwaysEngine emptyTool n hist =
      ⟨List.replicate n workingEvent, n, n, false⟩ := by
  intro n
  induction n with
  | zero => intro hist; rfl
  | succ m ih =>
    intro hist
    simp [runLoop, toolAlwaysEngine, emptyTool, toolMsg, handleSnapshot, ih,
      List.replicate_succ, Nat.add_comm]

/-- A loop event sequence containing the completion is a prefix of
`working` updates followed by exactly the artifact and the completion. -/
theorem stepEvents_completed (raws : List RawEvent)
    (h : Event.completion ∈ stepEvents raws) :
    ∃ n c, stepEvents raws = List.replicate n workingEvent ++
      [Event.artifact "paper_search_results" c, Event.completion] := by
  obtain ⟨n, hs | ⟨c, hs⟩ | ⟨c, hs⟩⟩ := stepEvents_shape raws
  · exfalso
    rw [hs] at h
    have := List.eq_of_mem_replicate h
    simp [workingEvent] at this
  · exfalso
    rw [hs] at h
    rcases List.mem_append.mp h with h | h
    · have := List.eq_of_mem_replicate h
      simp [workingEvent] at this
    · simp at h
  · exact ⟨n, c, hs⟩

/-- The handler of a snapshot whose last message has no tool calls never
emits a `working` status update (its possible outputs are nothing, a final
`input_required` update, or the artifact and the completion). -/
theorem handleSnapshot_no_tool_calls_no_working (m : Msg)
    (h : m.tool_calls = []) :
    (handleSnapshot m).1.any isWorkingStatusB = false := by
  simp only [handleSnapshot, h]
  by_cases hc : m.content = ""
  · simp [hc]
  · by_cases hcl : needsClarification m.content = true
    · simp [hc, hcl, isWorkingStatusB]
    · simp [hc, hcl, isWorkingStatusB]

/-! ## Claims -/

/-- C1: for a query that is empty or whitespace-only, `execute` raises
before the agent loop runs (zero reasoning-engine calls, zero tool calls,
no event — in particular no task — enqueued), but the error envelope the
transport returns carries code `-32603`, not the `-32602` the claim states:
`execute` raises a `ServerError` wrapping the `InvalidParamsError` payload,
and `handle_send` catches only the class `InvalidParamsError` itself, so
the dedicated `-32602` branch is dead and the generic handler answers. -/
theorem C1_whitespace_query_internal_error_and_no_agent_call
    (engine : List Msg → Msg) (tools : String → String) (fuel : Nat)
    (hasTask : Bool) (hist0 : List Msg) (query : String)
    (h : query.data.all Char.isWhitespace = true) :
    executeModel engine tools fuel query hasTask hist0 =
      ⟨.error (.serverError .invalidParams), 0, 0⟩ ∧
    handle_send (executeModel engine tools fuel query hasTask hist0).result =
      .error (-32603) ∧
    handle_send (executeModel engine tools fuel query hasTask hist0).result ≠
      .error (-32602) := by
  have hv : validateFails query = true := h
  refine ⟨?_, ?_, ?_⟩
  · simp [executeModel, hv]
  · simp [executeModel, hv, handle_send, isInstanceInvalidParams]
  · simp [executeModel, hv, handle_send, isInstanceInvalidParams]

/-- Witness for C1 at the concrete whitespace query. -/
theorem C1_witness :
    executeModel toolAlwaysEngine emptyTool 3 "   " false [] =
      ⟨.error (.serverError .invalidParams), 0, 0⟩ ∧
    handle_send (executeModel toolAlwaysEngine emptyTool 3 "   " false []).result =
      .error (-32603) ∧
    handle_send (executeModel toolAlwaysEngine emptyTool 3 "   " false []).result ≠
      .error (-32602) :=
  C1_whitespace_query_internal_error_and_no_agent_call
    toolAlwaysEngine emptyTool 3 false [] "   " (by decide)

/-- C2 counterexample: a concrete completed run (non-empty query, engine
answers immediately) emits its single artifact under the name
`paper_search_results`, which is not the claimed name `result`. -/
theorem C2_counterexample :
    executeModel (finalEngine "Found papers") emptyTool 1 "q" true [] =
      ⟨.ok [Event.artifact "paper_search_results" "Found papers",
        Event.completion], 1, 0⟩ ∧
    "paper_search_results" ≠ "result" := by
  exact ⟨rfl, by decide⟩

/-- C2 (amended): every run of the executor loop that reaches the
completion emits exactly one artifact, named `paper_search_results` (not
`result`), and that artifact immediately precedes the completion; nothing
before it is a completion. -/
theorem C2_amended_single_artifact_before_completion (query : String)
    (hasTask : Bool) (raws : List RawEvent) (evs : List Event)
    (h1 : executeRaw query hasTask raws = .ok evs)
    (h2 : Event.completion ∈ evs) :
    ∃ pre c, evs = pre ++ [Event.artifact "paper_search_results" c, Event.completion] ∧
      (evs.filter isArtifactB).length = 1 ∧ Event.completion ∉ pre := by
  unfold executeRaw at h1
  by_cases hv : validateFails query = true
  · simp [hv] at h1
  · simp only [hv, if_false, Bool.not_eq_true] at h1
    rw [if_neg (by simp [hv])] at h1
    have hevs : evs =
        (if hasTask then [] else [Event.task .submitted]) ++ stepEvents raws := by
      cases h1
      rfl
    have h2' : Event.completion ∈ stepEvents raws := by
      rw [hevs] at h2
      rcases List.mem_append.mp h2 with hmem | hmem
      · exfalso
        cases hasTask <;> simp at hmem
      · exact hmem
    obtain ⟨n, c, hs⟩ := stepEvents_completed raws h2'
    refine ⟨(if hasTask then [] else [Event.task .submitted]) ++
      List.replicate n workingEvent, c, ?_, ?_, ?_⟩
    · rw [hevs, hs, List.append_assoc]
    · rw [hevs, hs]
      rw [List.filter_append, List.filter_append,
        filter_replicate_neg isArtifactB workingEvent rfl]
      cases hasTask <;> simp [isArtifactB, List.filter_cons]
    · intro hmem
      rcases List.mem_append.mp hmem with hmem | hmem
      · cases hasTask <;> simp at hmem
      · have := List.eq_of_mem_replicate hmem
        simp [workingEvent] at this

/-- Witness for the amended C2 at a concrete completing raw sequence. -/
theorem C2_amended_witness :
    ∃ pre c,
      [Event.artifact "paper_search_results" "ok", Event.completion] =
        pre ++ [Event.artifact "paper_search_results" c, Event.completion] ∧
      ([Event.artifact "paper_search_results" "ok",
        Event.completion].filter isArtifactB).length = 1 ∧
      Event.completion ∉ pre :=
  C2_amended_single_artifact_before_completion "q" true
    [RawEvent.snap ⟨.assistant, "ok", []⟩]
    [Event.artifact "paper_search_results" "ok", Event.completion]
    rfl (by decide)

/-- C3: the code has no iteration cap and no `failed` task state at all.
Against an engine that requests a tool call on every turn (with empty tool
results), every fuel bound `n` yields `n` reasoning cycles, a stream of `n`
non-final `working` updates, and an unfinished run — the event stream grows
without bound and no `failed` (LoopExceeded) status is ever emitted; indeed
no raw event sequence whatsoever makes the executor emit a `failed` status. -/
theorem C3_no_iteration_cap_and_no_failed_state (n : Nat) (hist : List Msg) :
    (runLoop toolAlwaysEngine emptyTool n hist).events =
      List.replicate n workingEvent ∧
    (runLoop toolAlwaysEngine emptyTool n hist).finished = false ∧
    (runLoop toolAlwaysEngine emptyTool n hist).engineCalls = n ∧
    ∀ (raws : List RawEvent) (msg : String) (fin : Bool),
      Event.status .failed msg fin ∉ stepEvents raws := by
  refine ⟨?_, ?_, ?_, stepEvents_no_failed⟩ <;> rw [runLoop_toolAlways]

/-- Witness for C3 at a concrete fuel bound. -/
theorem C3_witness :
    (runLoop toolAlwaysEngine emptyTool 2 []).events =
      List.replicate 2 workingEvent ∧
    (runLoop toolAlwaysEngine emptyTool 2 []).finished = false :=
  ⟨(C3_no_iteration_cap_and_no_failed_state 2 []).1,
    (C3_no_iteration_cap_and_no_failed_state 2 []).2.1⟩

/-- C4: on a snapshot whose last message has no tool calls and non-empty
(final) content, the executor emits a final `input_required` status
carrying the content and stops (no artifact) when the clarification
heuristic matches, and otherwise emits an artifact carrying the content
followed by the completion and stops. -/
theorem C4_final_content_dispatch (m : Msg) (h1 : m.tool_calls = [])
    (h2 : m.content ≠ "") :
    (needsClarification m.content = true →
      handleSnapshot m = ([Event.status .input_required m.content true], true)) ∧
    (needsClarification m.content = false →
      handleSnapshot m =
        ([Event.artifact "paper_search_results" m.content, Event.completion], true)) := by
  constructor <;> intro hcl <;> simp [handleSnapshot, h1, h2, hcl]

/-- Witness for C4 at a concrete non-clarification final snapshot. -/
theorem C4_witness :
    handleSnapshot ⟨.assistant, "ok", []⟩ =
      ([Event.artifact "paper_search_results" "ok", Event.completion], true) :=
  (C4_final_content_dispatch ⟨.assistant, "ok", []⟩ rfl (by decide)).2 (by decide)

/-- C5 counterexample: a cancellation request on the wire (`tasks/cancel`)
is answered by the dispatcher with a `-32601` method-not-found envelope,
which is not the unsupported-operation protocol error (`-32004`): the
dispatcher has no cancellation route, so `PaperAgentExecutor.cancel` is
never reached. -/
theorem C5_counterexample :
    handle_a2a_request "tasks/cancel" (.ok []) = .json (.error (-32601)) ∧
    (-32601 : Int) ≠ unsupportedOperationCode := by
  exact ⟨rfl, by decide⟩

/-- C5 (amended): the executor's `cancel` unconditionally raises the
unsupported-operation server error, but the transport dispatcher routes no
cancellation method: any method outside `message/send`, `tasks/send`,
`message/stream` — in particular `tasks/cancel` — receives a `-32601`
method-not-found envelope; a cancellation is thus never silently dropped or
reported as success, but the protocol error it gets is method-not-found,
not unsupported-operation. -/
theorem C5_amended_no_cancellation_route (method : String)
    (out : Except PyExc (List Event))
    (h1 : method ≠ "message/send") (h2 : method ≠ "tasks/send")
    (h3 : method ≠ "message/stream") :
    handle_a2a_request method out = .json (.error (-32601)) ∧
    cancelModel = .error (.serverError .unsupportedOperation) := by
  constructor
  · simp [handle_a2a_request, h1, h2, h3]
  · rfl

/-- Witness for the amended C5 at the concrete cancellation method. -/
theorem C5_witness :
    handle_a2a_request "tasks/cancel" (.error PyExc.other) =
      .json (.error (-32601)) ∧
    cancelModel = .error (.serverError .unsupportedOperation) :=
  C5_amended_no_cancellation_route "tasks/cancel" (.error PyExc.other)
    (by decide) (by decide) (by decide)

/-- C6: on any run of the executor that returns normally, the aggregate
handler responds with exactly the buffered event list, and the streaming
handler frames exactly the same events in the same order (the only
completion is the final event, so the generator's early-stop on a
completion frame truncates nothing): the two delivery modes agree modulo
transport framing. -/
theorem C6_aggregate_and_stream_agree (query : String) (hasTask : Bool)
    (raws : List RawEvent) (evs : List Event)
    (h : executeRaw query hasTask raws = .ok evs) :
    handle_send (executeRaw query hasTask raws) = .success evs ∧
    handle_stream (executeRaw query hasTask raws) = .frames evs := by
  have hevs : evs =
      (if hasTask then [] else [Event.task .submitted]) ++ stepEvents raws := by
    unfold executeRaw at h
    by_cases hv : validateFails query = true
    · simp [hv] at h
    · rw [if_neg (by simp [hv])] at h
      cases h
      rfl
  constructor
  · rw [h]
    rfl
  · rw [h]
    show StreamOut.frames (streamFrames evs) = StreamOut.frames evs
    rw [hevs]
    cases hasTask with
    | true =>
      rw [if_pos rfl, List.nil_append, streamFrames_stepEvents]
    | false =>
      rw [if_neg (by simp), List.singleton_append,
        streamFrames_cons_ne _ _ (by decide), streamFrames_stepEvents]

/-- Witness for C6 at a concrete deterministic run. -/
theorem C6_witness :
    handle_send (executeRaw "q" false [RawEvent.snap ⟨.assistant, "ok", []⟩]) =
      .success [Event.task .submitted,
        Event.artifact "paper_search_results" "ok", Event.completion] ∧
    handle_stream (executeRaw "q" false [RawEvent.snap ⟨.assistant, "ok", []⟩]) =
      .frames [Event.task .submitted,
        Event.artifact "paper_search_results" "ok", Event.completion] :=
  C6_aggregate_and_stream_agree "q" false
    [RawEvent.snap ⟨.assistant, "ok", []⟩]
    [Event.task .submitted, Event.artifact "paper_search_results" "ok",
      Event.completion] rfl

/-- C7 counterexample: an empty query makes `search_arXiv` raise a
`ValueError` out of the tool function (lines 42-43 are outside the `try`
handler), rather than returning a textual `ToolResult` describing the
problem. -/
theorem C7_counterexample :
    search_arXiv (.str "") (.int 5) (.returns []) =
      .error (.valueError "Query must be a non-empty string.") := rfl

/-- C7 (amended): underlying execution failures (any exception from the
search), empty result sets and malformed data are converted into textual
results, and no exception escapes that path — but argument validation is
not: an empty or non-string query, or a non-integer `max_results`, raises
a `ValueError` out of the tool function; and there is no lower-bound check
on the result count (`max_results = 0` is accepted). -/
theorem C7_amended_validation_raises (s : String) (h : s ≠ "") (n : Int)
    (o o2 : ArxivOutcome) :
    isOkB (search_arXiv (.str s) (.int n) o) = true ∧
    isOkB (search_arXiv (.str "") (.int n) o2) = false ∧
    isOkB (search_arXiv (.str s) PyVal.otherVal o) = false ∧
    isOkB (search_arXiv PyVal.otherVal (.int n) o) = false := by
  refine ⟨?_, ?_, ?_, ?_⟩
  · rcases o with msg | papers
    · simp [search_arXiv, queryInvalid, maxResultsInvalid, h, isOkB]
    · rcases papers with _ | ⟨p, ps⟩ <;>
        simp [search_arXiv, queryInvalid, maxResultsInvalid, h, isOkB]
  · simp [search_arXiv, queryInvalid, isOkB]
  · simp [search_arXiv, queryInvalid, maxResultsInvalid, h, isOkB]
  · simp [search_arXiv, queryInvalid, isOkB]

/-- Witness for the amended C7, with a result count below one accepted. -/
theorem C7_witness :
    isOkB (search_arXiv (.str "qc") (.int 0) (.raises "network down")) = true ∧
    isOkB (search_arXiv (.str "") (.int 0) (.returns [])) = false ∧
    isOkB (search_arXiv (.str "qc") PyVal.otherVal (.raises "network down")) = false ∧
    isOkB (search_arXiv PyVal.otherVal (.int 0) (.raises "network down")) = false :=
  C7_amended_validation_raises "qc" (by decide) 0 (.raises "network down")
    (.returns [])

/-- C8: `call_model` hands the model the history unchanged when a system
message is already present, and otherwise hands it the fixed system
instruction prepended exactly once, in first position — never two. -/
theorem C8_system_instruction_injected_once (messages : List Msg) :
    (messages.any isSystemB = false →
      modelInput messages = sysMsg :: messages ∧
      (modelInput messages).countP isSystemB = 1 ∧
      (modelInput messages).head? = some sysMsg) ∧
    (messages.any isSystemB = true → modelInput messages = messages) := by
  constructor
  · intro hnone
    have heq : modelInput messages = sysMsg :: messages := by
      simp [modelInput, hnone]
    refine ⟨heq, ?_, by rw [heq]; rfl⟩
    rw [heq, List.countP_cons_of_pos _ _ (by rfl),
      countP_eq_zero_of_any_false isSystemB messages hnone]
  · intro hsome
    simp [modelInput, hsome]

/-- Witness for C8 on a concrete system-message-free history. -/
theorem C8_witness :
    modelInput [userMsg "hello"] = sysMsg :: [userMsg "hello"] ∧
    (modelInput [userMsg "hello"]).countP isSystemB = 1 ∧
    (modelInput [userMsg "hello"]).head? = some sysMsg :=
  (C8_system_instruction_injected_once [userMsg "hello"]).1 rfl

/-- C9 counterexample: a concrete request with no existing task and a
reasoning engine that answers immediately: the run enqueues the fresh
`submitted` task and then goes straight to artifact and completion — no
`working` status update is ever emitted, against the claimed
submitted-then-working prefix. -/
theorem C9_counterexample :
    executeModel (finalEngine "Found papers") emptyTool 1 "q" false [] =
      ⟨.ok [Event.task .submitted,
        Event.artifact "paper_search_results" "Found papers",
        Event.completion], 1, 0⟩ ∧
    [Event.task .submitted,
      Event.artifact "paper_search_results" "Found papers",
      Event.completion].any isWorkingStatusB = false := ⟨rfl, rfl⟩

/-- C9 (amended): on a valid request with no existing task, a fresh task
is enqueued in `submitted` state before every other event; a `working`
status follows it only when the first reasoning step requests tool calls
(in which case it is the very next event) — for every run whose first
reasoning step already returns final content (no tool calls), the whole
event sequence after the submitted task contains no `working` status at
all. -/
theorem C9_amended_fresh_task_submitted_first (engine : List Msg → Msg)
    (tools : String → String) (fuel : Nat) (query : String) (hist0 : List Msg)
    (h : validateFails query = false) :
    (∃ rest, (executeModel engine tools fuel query false hist0).result =
      .ok (Event.task .submitted :: rest)) ∧
    (∀ c cs, (engine (modelInput (hist0 ++ [userMsg query]))).tool_calls = c :: cs →
      ∀ m : Nat, fuel = m + 1 →
        ∃ rest2, (executeModel engine tools fuel query false hist0).result =
          .ok (Event.task .submitted :: workingEvent :: rest2)) ∧
    ((engine (modelInput (hist0 ++ [userMsg query]))).tool_calls = [] →
      ∃ rest3, (executeModel engine tools fuel query false hist0).result =
        .ok (Event.task .submitted :: rest3) ∧
        rest3.any isWorkingStatusB = false) := by
  have hexec : ∀ f : Nat, (executeModel engine tools f query false hist0).result =
      .ok (Event.task .submitted ::
        (runLoop engine tools f (hist0 ++ [userMsg query])).events) := by
    intro f
    simp [executeModel, h]
  refine ⟨⟨_, hexec fuel⟩, ?_, ?_⟩
  · intro c cs hc m hm
    subst hm
    have key : ∃ tail,
        (runLoop engine tools (m + 1) (hist0 ++ [userMsg query])).events =
          workingEvent :: tail := by
      simp only [runLoop, hc]
      split

      · exact ⟨_, rfl⟩
      · exact ⟨_, rfl⟩
    obtain ⟨tail, ht⟩ := key
    exact ⟨tail, by rw [hexec, ht]⟩
  · intro hnone
    refine ⟨(runLoop engine tools fuel (hist0 ++ [userMsg query])).events,
      hexec fuel, ?_⟩
    cases fuel with
    | zero => rfl
    | succ m =>
      simp only [runLoop, hnone]
      exact handleSnapshot_no_tool_calls_no_working _ hnone

/-- Witness for the amended C9: a concrete tool-requesting engine for the
first two conjuncts and a concrete final-content engine for the
no-working-status conjunct. -/
theorem C9_witness :
    (∃ rest, (executeModel toolAlwaysEngine emptyTool 1 "q" false []).result =
      .ok (Event.task .submitted :: rest)) ∧
    (∃ rest2, (executeModel toolAlwaysEngine emptyTool 1 "q" false []).result =
      .ok (Event.task .submitted :: workingEvent :: rest2)) ∧
    (∃ rest3,
      (executeModel (finalEngine "Found papers") emptyTool 1 "q" false []).result =
        .ok (Event.task .submitted :: rest3) ∧
      rest3.any isWorkingStatusB = false) :=
  ⟨(C9_amended_fresh_task_submitted_first toolAlwaysEngine emptyTool 1 "q" []
      (by decide)).1,
    (C9_amended_fresh_task_submitted_first toolAlwaysEngine emptyTool 1 "q" []
      (by decide)).2.1 "search_arXiv" [] rfl 0 rfl,
    (C9_amended_fresh_task_submitted_first (finalEngine "Found papers") emptyTool
      1 "q" [] (by decide)).2.2 rfl⟩

/-- C10: a stream event without a `"messages"` key, and a snapshot whose
last message has neither tool calls nor non-empty content, cause no status
update, no artifact, and do not stop the loop: the emitted event sequence
is exactly that of the remaining raw events. -/
theorem C10_neutral_snapshots_emit_nothing (m : Msg) (rest : List RawEvent)
    (h1 : m.tool_calls = []) (h2 : m.content = "") :
    stepEvents (RawEvent.noMessages :: rest) = stepEvents rest ∧
    stepEvents (RawEvent.snap m :: rest) = stepEvents rest := by
  refine ⟨rfl, ?_⟩
  simp [stepEvents, handleSnapshot, h1, h2]

/-- Witness for C10 at a concrete neutral snapshot. -/
theorem C10_witness :
    stepEvents (RawEvent.noMessages ::
      [RawEvent.snap ⟨.assistant, "ok", []⟩]) =
      stepEvents [RawEvent.snap ⟨.assistant, "ok", []⟩] ∧
    stepEvents (RawEvent.snap ⟨.assistant, "", []⟩ ::
      [RawEvent.snap ⟨.assistant, "ok", []⟩]) =
      stepEvents [RawEvent.snap ⟨.assistant, "ok", []⟩] :=
  C10_neutral_snapshots_emit_nothing ⟨.assistant, "", []⟩
    [RawEvent.snap ⟨.assistant, "ok", []⟩] rfl rfl

end PRA
